import Mathlib

/-
Shallow embedding of the Flame & Wrap Co. backend (src/schemas.py and
src/main.py).

Python floats are modelled as exact rationals, written as reduced
fractions (each constant carries a comment with the decimal literal it
embeds, and a bridging theorem below equates them with the decimal
rational literals).  Pydantic validation of a parsed request body or
stored document is modelled as a total function from a raw record (every
field present-or-absent) to `Option` of the validated record, `none`
meaning a ValidationError.  The optional external persistence
collaborator (the `database` module, which is not part of this
repository) is modelled by an abstract outcome parameter for the
stateless view of a handler, and by an explicit collection-name-indexed
store for the stateful seeding view.
-/

/-- 11.95 as an exact rational (239/20). -/
def rat_11_95 : Rat := ⟨239, 20, by decide, by decide⟩

/-- 14.5 as an exact rational (29/2). -/
def rat_14_5 : Rat := ⟨29, 2, by decide, by decide⟩

/-- 8.75 as an exact rational (35/4). -/
def rat_8_75 : Rat := ⟨35, 4, by decide, by decide⟩

/-- 4.9 as an exact rational (49/10). -/
def rat_4_9 : Rat := ⟨49, 10, by decide, by decide⟩

/-- 4.8 as an exact rational (24/5); the default value of `MenuItem.rating`. -/
def rat_4_8 : Rat := ⟨24, 5, by decide, by decide⟩

/-- 4.7 as an exact rational (47/10). -/
def rat_4_7 : Rat := ⟨47, 10, by decide, by decide⟩

/-- Character-wise lowercasing of a name, the collection naming convention
documented in src/schemas.py (model name is converted to lowercase for the
collection name). -/
def lowerStr (s : String) : String := String.mk (s.data.map Char.toLower)

/-- Validate every element of a list, failing if any element fails: the
embedding of a Python list comprehension such as
`[MenuItem(**doc) for doc in docs]`, where a raised ValidationError on any
element aborts the whole list. -/
def validateList {α β : Type} (f : α → Option β) : List α → Option (List β)
  | [] => some []
  | a :: as =>
    match f a, validateList f as with
    | some b, some bs => some (b :: bs)
    | _, _ => none

/-- A raw `MenuItem` document / request body before validation: every field
may be present or absent. -/
structure MenuItemRaw where
  name : Option String
  description : Option String
  price : Option Rat
  category : Option String
  image : Option String
  media : Option String
  rating : Option Rat
  ratings_count : Option Int
deriving DecidableEq, Repr

/-- Validated `MenuItem` (src/schemas.py lines 43-55): name, optional
description, price with `ge=0`, category, optional image/media, rating
defaulting to 4.8 with `ge=0, le=5`, ratings_count defaulting to 0 with
`ge=0`. -/
structure MenuItem where
  name : String
  description : Option String
  price : Rat
  category : String
  image : Option String
  media : Option String
  rating : Rat
  ratings_count : Int
deriving DecidableEq, Repr

/-- Pydantic validation `MenuItem(**doc)`: required fields must be present,
defaults are applied to absent defaulted fields, and the `ge`/`le` field
constraints are checked. -/
def MenuItem.validate (r : MenuItemRaw) : Option MenuItem :=
  match r.name, r.price, r.category with
  | some n, some p, some c =>
    let rt := r.rating.getD rat_4_8
    let rc := r.ratings_count.getD 0
    if 0 ≤ p ∧ 0 ≤ rt ∧ rt ≤ 5 ∧ 0 ≤ rc then
      some ⟨n, r.description, p, c, r.image, r.media, rt, rc⟩
    else none
  | _, _, _ => none

/-- `model_dump()` of a validated `MenuItem`: every field is emitted. -/
def MenuItem.dump (m : MenuItem) : MenuItemRaw :=
  ⟨some m.name, m.description, some m.price, some m.category,
   m.image, m.media, some m.rating, some m.ratings_count⟩

/-- A raw `Review` document / request body before validation. -/
structure ReviewRaw where
  name : Option String
  avatar : Option String
  rating : Option Int
  quote : Option String
  platform : Option String
deriving DecidableEq, Repr

/-- Validated `Review` (src/schemas.py lines 57-66): name, optional avatar,
integer rating with `ge=1, le=5`, quote, optional platform. -/
structure Review where
  name : String
  avatar : Option String
  rating : Int
  quote : String
  platform : Option String
deriving DecidableEq, Repr

/-- Pydantic validation `Review(**doc)`. -/
def Review.validate (r : ReviewRaw) : Option Review :=
  match r.name, r.rating, r.quote with
  | some n, some rt, some q =>
    if 1 ≤ rt ∧ rt ≤ 5 then some ⟨n, r.avatar, rt, q, r.platform⟩ else none
  | _, _, _ => none

/-- `model_dump()` of a validated `Review`. -/
def Review.dump (r : Review) : ReviewRaw :=
  ⟨some r.name, r.avatar, some r.rating, some r.quote, r.platform⟩

/-- A raw `OrderItem` body before validation.  The free-form `options`
mapping is modelled as an association list. -/
structure OrderItemRaw where
  item_id : Option String
  name : Option String
  price : Option Rat
  quantity : Option Int
  options : Option (List (String × String))
deriving DecidableEq, Repr

/-- Validated `OrderItem` (src/schemas.py lines 68-73): optional item_id,
name, price, quantity defaulting to 1, optional options.  No `ge`/`le`
constraint is declared on any field. -/
structure OrderItem where
  item_id : Option String
  name : String
  price : Rat
  quantity : Int
  options : Option (List (String × String))
deriving DecidableEq, Repr

/-- Pydantic validation of an `OrderItem`: only presence of the required
fields is checked; `quantity` defaults to 1 when absent. -/
def OrderItem.validate (r : OrderItemRaw) : Option OrderItem :=
  match r.name, r.price with
  | some n, some p => some ⟨r.item_id, n, p, r.quantity.getD 1, r.options⟩
  | _, _ => none

/-- A raw `Order` body before validation. -/
structure OrderRaw where
  items : Option (List OrderItemRaw)
  subtotal : Option Rat
  tax : Option Rat
  total : Option Rat
  customer_name : Option String
  customer_phone : Option String
  notes : Option String
deriving DecidableEq, Repr

/-- Validated `Order` (src/schemas.py lines 75-86): a list of `OrderItem`,
subtotal, tax, total, optional customer name/phone/notes.  No constraint
relates subtotal, tax and total, and none of them is range-restricted. -/
structure Order where
  items : List OrderItem
  subtotal : Rat
  tax : Rat
  total : Rat
  customer_name : Option String
  customer_phone : Option String
  notes : Option String
deriving DecidableEq, Repr

/-- Pydantic validation of an `Order`: the required fields must be present
and every item must validate as an `OrderItem`. -/
def Order.validate (r : OrderRaw) : Option Order :=
  match r.items, r.subtotal, r.tax, r.total with
  | some its, some st, some tx, some tt =>
    match validateList OrderItem.validate its with
    | some items => some ⟨items, st, tx, tt, r.customer_name, r.customer_phone, r.notes⟩
    | none => none
  | _, _, _, _ => none

/-- The three hardcoded default menu items of `get_menu`
(src/main.py lines 87-118). -/
def menuDefaults : List MenuItem :=
  [⟨"City Classic Shawarma",
    some "Fire-grilled chicken, garlic sauce, pickles, city herbs.",
    rat_11_95, "wraps",
    some "https://images.unsplash.com/photo-1604908554039-955f8a19a34b?q=80&w=1200&auto=format&fit=crop",
    some "https://cdn.coverr.co/videos/coverr-grilling-meat-2869/1080p.mp4",
    rat_4_9, 542⟩,
   ⟨"Ember Beef Skewers",
    some "Charred edges, tender center, pomegranate glaze.",
    rat_14_5, "skewers",
    some "https://images.unsplash.com/photo-1616712134411-6a2dd1d8ef2e?q=80&w=1200&auto=format&fit=crop",
    some "https://cdn.coverr.co/videos/coverr-fire-grilling-4037/1080p.mp4",
    rat_4_8, 311⟩,
   ⟨"Loaded City Fries",
    some "Garlic drizzle, chili crunch, parsley rain.",
    rat_8_75, "fries",
    some "https://images.unsplash.com/photo-1546549039-49d3c2d6d3d2?q=80&w=1200&auto=format&fit=crop",
    some "https://cdn.coverr.co/videos/coverr-close-up-of-french-fries-1550/1080p.mp4",
    rat_4_7, 228⟩]

/-- The three hardcoded default reviews of `get_reviews`
(src/main.py lines 137-141). -/
def reviewDefaults : List Review :=
  [⟨"Layla", none, 5, "The garlic drizzle is unreal. City vibes in a wrap!", some "Google"⟩,
   ⟨"Marco", none, 5, "Beef skewers with that ember glaze… perfection.", some "Yelp"⟩,
   ⟨"Anaya", none, 4, "Loaded fries that belong in a music video.", some "Google"⟩]

/-- Outcome of the persistence interaction of a read handler
(`get_menu` / `get_reviews`), covering every way the guarded block in
src/main.py lines 120-132 (resp. 142-152) can go: the import of the
`database` module raises, the handle `db` is `None`, the `find` call
raises, or `find` returns a list of raw documents (in which case, if the
list is empty, the subsequent `insert_many` may itself raise — the flag
records whether it does). -/
inductive ReadOutcome (Doc : Type) where
  | importError
  | handleNone
  | findRaises
  | found (docs : List Doc) (insertRaises : Bool)

/-- `GET /api/menu` (src/main.py lines 84-132), stateless view: the
response as a function of the persistence outcome.  Any exception —
import, find, insert_many, or a ValidationError while rebuilding the
stored documents — is caught and answered with the defaults. -/
def get_menu (p : ReadOutcome MenuItemRaw) : List MenuItem :=
  match p with
  | .importError => menuDefaults
  | .handleNone => menuDefaults
  | .findRaises => menuDefaults
  | .found docs _ =>
    if docs.isEmpty then menuDefaults
    else
      match validateList MenuItem.validate docs with
      | some items => items
      | none => menuDefaults

/-- `GET /api/reviews` (src/main.py lines 135-152), stateless view. -/
def get_reviews (p : ReadOutcome ReviewRaw) : List Review :=
  match p with
  | .importError => reviewDefaults
  | .handleNone => reviewDefaults
  | .findRaises => reviewDefaults
  | .found docs _ =>
    if docs.isEmpty then reviewDefaults
    else
      match validateList Review.validate docs with
      | some items => items
      | none => reviewDefaults

/-- Result of one stateful handler step over a working document store:
the updated store (collections indexed by name), whether the seeding
`insert_many` branch ran, and the response body. -/
structure StepResult (Doc Rec : Type) where
  store : String → List Doc
  inserted : Bool
  response : List Rec

/-- `GET /api/menu`, stateful view over a working store: read collection
"menuitem"; if empty, seed it with the dumped defaults (`insert_many`
appends) and return the defaults; otherwise revalidate the stored
documents, answering with the defaults on a ValidationError. -/
def getMenuStep (store : String → List MenuItemRaw) : StepResult MenuItemRaw MenuItem :=
  let docs := store "menuitem"
  if docs.isEmpty then
    ⟨fun c => if c = "menuitem" then store c ++ menuDefaults.map MenuItem.dump else store c,
     true, menuDefaults⟩
  else
    ⟨store, false,
     match validateList MenuItem.validate docs with
     | some items => items
     | none => menuDefaults⟩

/-- `GET /api/reviews`, stateful view over a working store, on collection
"review". -/
def getReviewsStep (store : String → List ReviewRaw) : StepResult ReviewRaw Review :=
  let docs := store "review"
  if docs.isEmpty then
    ⟨fun c => if c = "review" then store c ++ reviewDefaults.map Review.dump else store c,
     true, reviewDefaults⟩
  else
    ⟨store, false,
     match validateList Review.validate docs with
     | some items => items
     | none => reviewDefaults⟩

/-- Response shape of `POST /api/orders` (src/main.py lines 155-157). -/
structure OrderResponse where
  id : Option String
  message : String
deriving DecidableEq, Repr

/-- `POST /api/orders` (src/main.py lines 160-168).  The persistence
collaborator `create_document` is abstracted as a function from a
collection name and the validated order to `some` generated identifier,
`none` standing for any raised exception (including an import failure of
the `database` module). -/
def create_order (cd : String → Order → Option String) (o : Order) : OrderResponse :=
  match cd "order" o with
  | some oid => ⟨some oid, "Order received. We\x27ll start the grill!"⟩
  | none => ⟨none, "Order received (demo mode). We\x27ll start the grill!"⟩

/-- A machine-readable schema document as exposed by
`model_json_schema()`: modelled by its title (the model class name) and
its list of required fields. -/
structure SchemaDoc where
  title : String
  required : List String
deriving DecidableEq, Repr

/-- `MenuItem.model_json_schema()`. -/
def MenuItem.json_schema : SchemaDoc := ⟨"MenuItem", ["name", "price", "category"]⟩

/-- `Review.model_json_schema()`. -/
def Review.json_schema : SchemaDoc := ⟨"Review", ["name", "rating", "quote"]⟩

/-- `Order.model_json_schema()`. -/
def Order.json_schema : SchemaDoc := ⟨"Order", ["items", "subtotal", "tax", "total"]⟩

/-- `User.model_json_schema()` for the example `User` model of
src/schemas.py (not exposed by any endpoint). -/
def User.json_schema : SchemaDoc := ⟨"User", ["name", "email", "address"]⟩

/-- `Product.model_json_schema()` for the example `Product` model of
src/schemas.py (not exposed by any endpoint). -/
def Product.json_schema : SchemaDoc := ⟨"Product", ["title", "price", "category"]⟩

/-- `OrderItem.model_json_schema()` (nested inside `Order`, not a
top-level entry of the `/schema` response). -/
def OrderItem.json_schema : SchemaDoc := ⟨"OrderItem", ["name", "price"]⟩

/-- `GET /schema` (src/main.py lines 72-79): the three app-facing record
shapes keyed by their collection names. -/
def get_schema : List (String × SchemaDoc) :=
  [("menuitem", MenuItem.json_schema),
   ("review", Review.json_schema),
   ("order", Order.json_schema)]

/-- Response dictionary of `GET /test` (src/main.py lines 33-40).  The
`database_url` and `database_name` entries start out as Python `None`
(here `Option.none`) and are strings once assigned. -/
structure TestResponse where
  backend : String
  database : String
  database_url : Option String
  database_name : Option String
  connection_status : String
  collections : List String
deriving DecidableEq, Repr

/-- Outcome of the persistence probe in the guarded block of `GET /test`
(src/main.py lines 42-63): the import raises ImportError, some other
exception is raised in the block, the handle is `None`, or the handle is
live — carrying its optional `name` attribute and the result of
`list_collection_names()` (a list, or the message of a raised
exception). -/
inductive ProbeOutcome where
  | importError
  | otherError (msg : String)
  | handleNone
  | connected (dbName : Option String) (listing : Except String (List String))

/-- Truthiness rendering of an environment variable lookup
(src/main.py lines 66-67): `os.getenv` yields `None` when unset, and an
empty string is falsy too. -/
def envFlag (v : Option String) : String :=
  match v with
  | some s => if s.isEmpty then "❌ Not Set" else "✅ Set"
  | none => "❌ Not Set"

/-- `GET /test` (src/main.py lines 30-69): build the base response, run
the guarded probe (every failure rendered as a descriptive string, the
error text truncated to 50 characters), then unconditionally overwrite
the `database_url` / `database_name` entries from the environment. -/
def test_database (p : ProbeOutcome) (url dbname : Option String) : TestResponse :=
  let afterTry : TestResponse :=
    match p with
    | .importError =>
      ⟨"✅ Running", "❌ Database module not found (run enable-database first)",
       none, none, "Not Connected", []⟩
    | .otherError m =>
      ⟨"✅ Running", "❌ Error: " ++ m.take 50, none, none, "Not Connected", []⟩
    | .handleNone =>
      ⟨"✅ Running", "⚠️  Available but not initialized", none, none, "Not Connected", []⟩
    | .connected nm (.ok cols) =>
      ⟨"✅ Running", "✅ Connected & Working", some "✅ Configured",
       some (nm.getD "✅ Connected"), "Connected", cols.take 10⟩
    | .connected nm (.error m) =>
      ⟨"✅ Running", "⚠️  Connected but Error: " ++ m.take 50, some "✅ Configured",
       some (nm.getD "✅ Connected"), "Connected", []⟩
  ⟨afterTry.backend, afterTry.database, some (envFlag url), some (envFlag dbname),
   afterTry.connection_status, afterTry.collections⟩

/-- The store state after a successful seeding of the "menuitem"
collection from empty. -/
def menuSeededStore : String → List MenuItemRaw :=
  fun c => if c = "menuitem" then menuDefaults.map MenuItem.dump else []

/-- The store state after a successful seeding of the "review" collection
from empty. -/
def reviewSeededStore : String → List ReviewRaw :=
  fun c => if c = "review" then reviewDefaults.map Review.dump else []

/-- -5 as an exact rational. -/
def rat_neg_5 : Rat := ⟨-5, 1, by decide, by decide⟩

/-- -10 as an exact rational. -/
def rat_neg_10 : Rat := ⟨-10, 1, by decide, by decide⟩

/-- -2 as an exact rational. -/
def rat_neg_2 : Rat := ⟨-2, 1, by decide, by decide⟩

/-- -1 as an exact rational. -/
def rat_neg_1 : Rat := ⟨-1, 1, by decide, by decide⟩

/-- 7 as an exact rational. -/
def rat_7 : Rat := ⟨7, 1, by decide, by decide⟩

/-- A well-formed order body: one shawarma, no tax. -/
def order_demo_raw : OrderRaw :=
  ⟨some [⟨none, some "City Classic Shawarma", some rat_11_95, none, none⟩],
   some rat_11_95, some 0, some rat_11_95, some "Layla", none, none⟩

/-- The validated form of `order_demo_raw`. -/
def order_demo : Order :=
  ⟨[⟨none, "City Classic Shawarma", rat_11_95, 1, none⟩],
   rat_11_95, 0, rat_11_95, some "Layla", none, none⟩

/-- An order body with negative subtotal, tax and total, and with
total distinct from subtotal plus tax. -/
def order_bad_raw : OrderRaw :=
  ⟨some [], some rat_neg_10, some rat_neg_2, some rat_neg_1, none, none, none⟩

/-- The validated form of `order_bad_raw`. -/
def order_bad : Order := ⟨[], rat_neg_10, rat_neg_2, rat_neg_1, none, none, none⟩

/-- An order item with a negative price and zero quantity. -/
def negItem_raw : OrderItemRaw := ⟨none, some "Mystery Wrap", some rat_neg_5, some 0, none⟩

/-- An order item with a negative quantity. -/
def negQtyItem_raw : OrderItemRaw := ⟨none, some "Echo Fries", some rat_8_75, some (-3), none⟩

/-- An order body whose items carry a negative price, a zero quantity and
a negative quantity. -/
def order_negitem_raw : OrderRaw :=
  ⟨some [negItem_raw, negQtyItem_raw], some 0, some 0, some 0, none, none, none⟩

/-- The validated form of `order_negitem_raw`. -/
def order_negitem : Order :=
  ⟨[⟨none, "Mystery Wrap", rat_neg_5, 0, none⟩,
    ⟨none, "Echo Fries", rat_8_75, -3, none⟩],
   0, 0, 0, none, none, none⟩

/-- A stored menu document whose rating violates the `le=5` constraint. -/
def bad_menu_doc : MenuItemRaw :=
  ⟨some "Ghost Wrap", none, some rat_11_95, some "wraps", none, none, some rat_7, some 1⟩

/-- A stored review document whose rating violates the `le=5` constraint. -/
def bad_review_doc : ReviewRaw := ⟨some "Ghost", none, some 6, some "too good", none⟩

/-- The reduced-fraction rational constants equal the decimal literals
appearing in the source. -/
theorem rat_constants_eq_decimal :
    rat_11_95 = 11.95 ∧ rat_14_5 = 14.5 ∧ rat_8_75 = 8.75 ∧
    rat_4_9 = 4.9 ∧ rat_4_8 = 4.8 ∧ rat_4_7 = 4.7 := by
  refine ⟨?_, ?_, ?_, ?_, ?_, ?_⟩
  · rw [rat_11_95, Rat.mk'_eq_divInt, Rat.divInt_eq_div]; norm_num
  · rw [rat_14_5, Rat.mk'_eq_divInt, Rat.divInt_eq_div]; norm_num
  · rw [rat_8_75, Rat.mk'_eq_divInt, Rat.divInt_eq_div]; norm_num
  · rw [rat_4_9, Rat.mk'_eq_divInt, Rat.divInt_eq_div]; norm_num
  · rw [rat_4_8, Rat.mk'_eq_divInt, Rat.divInt_eq_div]; norm_num
  · rw [rat_4_7, Rat.mk'_eq_divInt, Rat.divInt_eq_div]; norm_num

/-- A fully successful `validateList` preserves emptiness of the input. -/
theorem validateList_isEmpty_eq {α β : Type} (f : α → Option β) :
    ∀ (l : List α) (r : List β), validateList f l = some r → r.isEmpty = l.isEmpty := by
  intro l
  induction l with
  | nil =>
    intro r h
    simp only [validateList, Option.some.injEq] at h
    subst h
    rfl
  | cons x xs ih =>
    intro r h
    rw [validateList] at h
    cases hx : f x with
    | none => rw [hx] at h; exact absurd h (by simp)
    | some b =>
      cases hxs : validateList f xs with
      | none => rw [hx, hxs] at h; exact absurd h (by simp)
      | some bs =>
        rw [hx, hxs] at h
        simp only [Option.some.injEq] at h
        subst h
        rfl

/-- If any element of the list fails to validate, the whole
`validateList` fails (the ValidationError raised inside the list
comprehension aborts it). -/
theorem validateList_none_of_mem {α β : Type} (f : α → Option β) :
    ∀ (l : List α) (a : α), a ∈ l → f a = none → validateList f l = none := by
  intro l
  induction l with
  | nil => intro a h; cases h
  | cons x xs ih =>
    intro a hmem hfa
    rcases List.mem_cons.mp hmem with rfl | hmem2
    · rw [validateList, hfa]
    · rw [validateList, ih a hmem2 hfa]
      cases f x <;> rfl

/-- A `MenuItem` document with a negative price fails validation,
whatever its other fields hold. -/
theorem menuItem_validate_neg_price :
    ∀ (r : MenuItemRaw) (p : Rat), r.price = some p → p < 0 →
      MenuItem.validate r = none := by
  intro r p hp hneg
  obtain ⟨nm, ds, pr, ct, im, md, rt, rc⟩ := r
  simp only at hp
  subst hp
  cases nm with
  | none => rfl
  | some nm =>
    cases ct with
    | none => rfl
    | some ct =>
      simp only [MenuItem.validate]
      rw [if_neg]
      intro hcon
      exact absurd hcon.1 (not_le.mpr hneg)

/-- A `Review` document with a rating outside [1,5] fails validation,
whatever its other fields hold. -/
theorem review_validate_out_of_range :
    ∀ (r : ReviewRaw) (n : Int), r.rating = some n → (n < 1 ∨ 5 < n) →
      Review.validate r = none := by
  intro r n hn hout
  obtain ⟨nm, av, rt, q, pf⟩ := r
  simp only at hn
  subst hn
  cases nm with
  | none => rfl
  | some nm =>
    cases q with
    | none => rfl
    | some q =>
      simp only [Review.validate]
      rw [if_neg]
      omega

/-- C1: for every persistence outcome — import failure, `db is None`,
a raising `find`, an empty collection (with the seeding `insert_many`
raising or not), or a non-empty collection — `GET /api/menu` and
`GET /api/reviews` return non-empty lists, and in each fallback or
empty-collection case the response is exactly the three hardcoded
default records. -/
theorem menu_and_reviews_nonempty_with_default_fallback :
    (∀ p : ReadOutcome MenuItemRaw, (get_menu p).isEmpty = false) ∧
    (∀ p : ReadOutcome ReviewRaw, (get_reviews p).isEmpty = false) ∧
    get_menu .importError = menuDefaults ∧
    get_menu .handleNone = menuDefaults ∧
    get_menu .findRaises = menuDefaults ∧
    (∀ b, get_menu (.found [] b) = menuDefaults) ∧
    get_reviews .importError = reviewDefaults ∧
    get_reviews .handleNone = reviewDefaults ∧
    get_reviews .findRaises = reviewDefaults ∧
    (∀ b, get_reviews (.found [] b) = reviewDefaults) ∧
    menuDefaults.length = 3 ∧ reviewDefaults.length = 3 := by
  refine ⟨?_, ?_, rfl, rfl, rfl, fun _ => rfl, rfl, rfl, rfl, fun _ => rfl, rfl, rfl⟩
  · intro p
    cases p with
    | importError => rfl
    | handleNone => rfl
    | findRaises => rfl
    | found docs b =>
      cases hE : docs.isEmpty with
      | true =>
        simp [get_menu, hE]
        decide
      | false =>
        cases hv : validateList MenuItem.validate docs with
        | none =>
          simp [get_menu, hE, hv]
          decide
        | some items =>
          have hlen := validateList_isEmpty_eq MenuItem.validate docs items hv
          simp [get_menu, hE, hv, hlen]
  · intro p
    cases p with
    | importError => rfl
    | handleNone => rfl
    | findRaises => rfl
    | found docs b =>
      cases hE : docs.isEmpty with
      | true =>
        simp [get_reviews, hE]
        decide
      | false =>
        cases hv : validateList Review.validate docs with
        | none =>
          simp [get_reviews, hE, hv]
          decide
        | some items =>
          have hlen := validateList_isEmpty_eq Review.validate docs items hv
          simp [get_reviews, hE, hv, hlen]

/-- Witness for C1 at concrete persistence outcomes. -/
theorem menu_and_reviews_nonempty_witness :
    (get_menu (.found [bad_menu_doc] false)).isEmpty = false ∧
    (get_reviews (.found [] true)).isEmpty = false :=
  ⟨menu_and_reviews_nonempty_with_default_fallback.1 (.found [bad_menu_doc] false),
   menu_and_reviews_nonempty_with_default_fallback.2.1 (.found [] true)⟩

/-- C2: for every body validating as an `Order` and every persistence
outcome, `POST /api/orders` answers with a success payload carrying a
message: the generated identifier and the confirmation message when the
insert succeeds, a null identifier and the demo-mode message when it
fails; the handler itself is a total function (it never raises). -/
theorem create_order_always_acknowledges :
    ∀ (cd : String → Order → Option String) (raw : OrderRaw) (o : Order),
      Order.validate raw = some o →
      ((create_order cd o).message = "Order received. We\x27ll start the grill!" ∨
        (create_order cd o).message = "Order received (demo mode). We\x27ll start the grill!") ∧
      (∀ oid, cd "order" o = some oid →
        create_order cd o = ⟨some oid, "Order received. We\x27ll start the grill!"⟩) ∧
      (cd "order" o = none →
        create_order cd o = ⟨none, "Order received (demo mode). We\x27ll start the grill!"⟩) := by
  intro cd raw o _
  refine ⟨?_, ?_, ?_⟩
  · cases h : cd "order" o with
    | some oid => left; simp [create_order, h]
    | none => right; simp [create_order, h]
  · intro oid h; simp [create_order, h]
  · intro h; simp [create_order, h]

/-- Witness for C2: a concrete well-formed order against a failing and a
succeeding persistence collaborator. -/
theorem create_order_always_acknowledges_witness :
    create_order (fun _ _ => none) order_demo =
      ⟨none, "Order received (demo mode). We\x27ll start the grill!"⟩ ∧
    create_order (fun _ _ => some "oid-1") order_demo =
      ⟨some "oid-1", "Order received. We\x27ll start the grill!"⟩ :=
  ⟨(create_order_always_acknowledges (fun _ _ => none) order_demo_raw order_demo
      (by decide)).2.2 rfl,
   (create_order_always_acknowledges (fun _ _ => some "oid-1") order_demo_raw order_demo
      (by decide)).2.1 "oid-1" rfl⟩

/-- C3: validation enforces the declared field ranges — a `Review` rating
outside [1,5] or a negative `MenuItem` price is rejected — and a complete
`Review` with rating in [1,5], or a complete `MenuItem` with price ≥ 0,
rating in [0,5] and ratings_count ≥ 0, validates successfully. -/
theorem field_constraints_enforced :
    (∀ (r : ReviewRaw) (n : Int), r.rating = some n → (n < 1 ∨ 5 < n) →
        Review.validate r = none) ∧
    (∀ (r : MenuItemRaw) (p : Rat), r.price = some p → p < 0 →
        MenuItem.validate r = none) ∧
    (∀ (nm q : String) (av pf : Option String) (n : Int),
        1 ≤ n → n ≤ 5 →
        Review.validate ⟨some nm, av, some n, some q, pf⟩ = some ⟨nm, av, n, q, pf⟩) ∧
    (∀ (nm ct : String) (ds im md : Option String) (p rt : Rat) (rc : Int),
        0 ≤ p → 0 ≤ rt → rt ≤ 5 → 0 ≤ rc →
        MenuItem.validate ⟨some nm, ds, some p, some ct, im, md, some rt, some rc⟩ =
          some ⟨nm, ds, p, ct, im, md, rt, rc⟩) := by
  refine ⟨review_validate_out_of_range, menuItem_validate_neg_price, ?_, ?_⟩
  · intro nm q av pf n h1 h5
    simp only [Review.validate]
    rw [if_pos ⟨h1, h5⟩]
  · intro nm ct ds im md p rt rc hp hrt0 hrt5 hrc
    simp only [MenuItem.validate, Option.getD_some]
    rw [if_pos ⟨hp, hrt0, hrt5, hrc⟩]

/-- Witness for C3: rating 6 and a negative price are rejected; in-range
records validate. -/
theorem field_constraints_enforced_witness :
    Review.validate ⟨some "Layla", none, some 6, some "great", none⟩ = none ∧
    MenuItem.validate ⟨some "Ghost Wrap", none, some rat_neg_5, some "wraps",
      none, none, none, none⟩ = none ∧
    Review.validate ⟨some "Layla", none, some 5, some "great", some "Google"⟩ =
      some ⟨"Layla", none, 5, "great", some "Google"⟩ ∧
    MenuItem.validate ⟨some "City Classic Shawarma", none, some rat_11_95, some "wraps",
      none, none, some rat_4_9, some 542⟩ =
      some ⟨"City Classic Shawarma", none, rat_11_95, "wraps", none, none, rat_4_9, 542⟩ :=
  ⟨field_constraints_enforced.1 _ 6 rfl (by decide),
   field_constraints_enforced.2.1 _ rat_neg_5 rfl (by decide),
   field_constraints_enforced.2.2.1 "Layla" "great" none (some "Google") 5
     (by decide) (by decide),
   field_constraints_enforced.2.2.2 "City Classic Shawarma" "wraps" none none none
     rat_11_95 rat_4_9 542 (by decide) (by decide) (by decide) (by decide)⟩

/-- C4: `Order` validation imposes no cross-field constraint: a body with
total distinct from subtotal plus tax — indeed with all three negative —
passes validation and is accepted by `POST /api/orders`. -/
theorem order_no_cross_field_invariant :
    Order.validate order_bad_raw = some order_bad ∧
    order_bad.total ≠ order_bad.subtotal + order_bad.tax ∧
    order_bad.subtotal + order_bad.tax < order_bad.total ∧
    order_bad.subtotal < 0 ∧ order_bad.tax < 0 ∧ order_bad.total < 0 ∧
    create_order (fun _ _ => some "oid-2") order_bad =
      ⟨some "oid-2", "Order received. We\x27ll start the grill!"⟩ := by
  have h10 : rat_neg_10 = -10 := by
    rw [rat_neg_10, Rat.mk'_eq_divInt, Rat.divInt_eq_div]; norm_num
  have h2 : rat_neg_2 = -2 := by
    rw [rat_neg_2, Rat.mk'_eq_divInt, Rat.divInt_eq_div]; norm_num
  have h1 : rat_neg_1 = -1 := by
    rw [rat_neg_1, Rat.mk'_eq_divInt, Rat.divInt_eq_div]; norm_num
  refine ⟨by decide, ?_, ?_, by decide, by decide, by decide, rfl⟩
  · show rat_neg_1 ≠ rat_neg_10 + rat_neg_2
    rw [h10, h2, h1]; norm_num
  · show rat_neg_10 + rat_neg_2 < rat_neg_1
    rw [h10, h2, h1]; norm_num

/-- Witness for C4, projecting the concrete validated-and-accepted order. -/
theorem order_no_cross_field_invariant_witness :
    Order.validate order_bad_raw = some order_bad ∧
    order_bad.subtotal + order_bad.tax < order_bad.total :=
  ⟨order_no_cross_field_invariant.1, order_no_cross_field_invariant.2.2.1⟩

/-- C5: observable idempotence of seeding — starting from an empty
collection, the first call to `GET /api/menu` (resp. `GET /api/reviews`)
takes the insert branch, seeds the dumped defaults and returns them, and
a second call returns the same three records without inserting again and
without changing the store; in general the insert branch runs exactly
when the collection read comes back empty. -/
theorem seeding_idempotent :
    (∀ store : String → List MenuItemRaw,
        (getMenuStep store).inserted = (store "menuitem").isEmpty) ∧
    (∀ store : String → List ReviewRaw,
        (getReviewsStep store).inserted = (store "review").isEmpty) ∧
    (getMenuStep (fun _ => [])).inserted = true ∧
    (getMenuStep (fun _ => [])).response = menuDefaults ∧
    (getMenuStep (fun _ => [])).store = menuSeededStore ∧
    (getMenuStep menuSeededStore).inserted = false ∧
    (getMenuStep menuSeededStore).response = menuDefaults ∧
    (getMenuStep menuSeededStore).store = menuSeededStore ∧
    (getReviewsStep (fun _ => [])).inserted = true ∧
    (getReviewsStep (fun _ => [])).response = reviewDefaults ∧
    (getReviewsStep (fun _ => [])).store = reviewSeededStore ∧
    (getReviewsStep reviewSeededStore).inserted = false ∧
    (getReviewsStep reviewSeededStore).response = reviewDefaults ∧
    (getReviewsStep reviewSeededStore).store = reviewSeededStore := by
  refine ⟨?_, ?_, rfl, rfl, rfl, by decide, by decide, rfl,
          rfl, rfl, rfl, by decide, by decide, rfl⟩
  · intro store
    cases hE : (store "menuitem").isEmpty with
    | true => simp [getMenuStep, hE]
    | false => simp [getMenuStep, hE]
  · intro store
    cases hE : (store "review").isEmpty with
    | true => simp [getReviewsStep, hE]
    | false => simp [getReviewsStep, hE]

/-- Witness for C5: the insert flag at two concrete stores, one empty and
one seeded. -/
theorem seeding_idempotent_witness :
    (getMenuStep (fun _ => [bad_menu_doc])).inserted = false ∧
    (getReviewsStep (fun _ => [bad_review_doc])).inserted = false :=
  ⟨seeding_idempotent.1 (fun _ => [bad_menu_doc]),
   seeding_idempotent.2.1 (fun _ => [bad_review_doc])⟩

/-- C6: `GET /test` is a total function of the probe outcome and the
environment — it never raises — and renders every failure as a
descriptive string in the diagnostic payload, the error text truncated to
50 characters, with the environment flags reported for every setting of
the DATABASE_URL / DATABASE_NAME variables. -/
theorem test_database_diagnostic_total :
    ∀ (url dbname : Option String) (m : String) (nm : Option String) (cols : List String),
      (∀ p, (test_database p url dbname).backend = "✅ Running" ∧
            (test_database p url dbname).database_url = some (envFlag url) ∧
            (test_database p url dbname).database_name = some (envFlag dbname)) ∧
      (test_database .importError url dbname).database =
        "❌ Database module not found (run enable-database first)" ∧
      (test_database .importError url dbname).connection_status = "Not Connected" ∧
      (test_database (.otherError m) url dbname).database = "❌ Error: " ++ m.take 50 ∧
      (test_database .handleNone url dbname).database =
        "⚠️  Available but not initialized" ∧
      (test_database .handleNone url dbname).connection_status = "Not Connected" ∧
      (test_database (.connected nm (.error m)) url dbname).database =
        "⚠️  Connected but Error: " ++ m.take 50 ∧
      (test_database (.connected nm (.error m)) url dbname).connection_status = "Connected" ∧
      (test_database (.connected nm (.error m)) url dbname).collections = [] ∧
      (test_database (.connected nm (.ok cols)) url dbname).database =
        "✅ Connected & Working" ∧
      (test_database (.connected nm (.ok cols)) url dbname).connection_status = "Connected" ∧
      (test_database (.connected nm (.ok cols)) url dbname).collections = cols.take 10 := by
  intro url dbname m nm cols
  refine ⟨?_, rfl, rfl, rfl, rfl, rfl, rfl, rfl, rfl, rfl, rfl, rfl⟩
  intro p
  cases p with
  | importError => exact ⟨rfl, rfl, rfl⟩
  | otherError m2 => exact ⟨rfl, rfl, rfl⟩
  | handleNone => exact ⟨rfl, rfl, rfl⟩
  | connected nm2 ls =>
    cases ls with
    | ok c => exact ⟨rfl, rfl, rfl⟩
    | error e => exact ⟨rfl, rfl, rfl⟩

/-- Witness for C6 at a concrete probe outcome and environment. -/
theorem test_database_diagnostic_witness :
    (test_database (.otherError "boom") (some "") (some "appdb")).database =
      "❌ Error: " ++ "boom".take 50 :=
  (test_database_diagnostic_total (some "") (some "appdb") "boom" none []).2.2.2.1

/-- C7: `GET /schema` returns machine-readable schema documents for
exactly the three app-facing record shapes — MenuItem, Review and Order —
and no others; in particular neither User, Product nor OrderItem appears
as a top-level entry. -/
theorem schema_exactly_three_shapes :
    get_schema.length = 3 ∧
    get_schema.map Prod.fst = ["menuitem", "review", "order"] ∧
    (get_schema.map fun e => e.2.title) = ["MenuItem", "Review", "Order"] ∧
    ((get_schema.map fun e => e.2.title).contains "User") = false ∧
    ((get_schema.map fun e => e.2.title).contains "Product") = false ∧
    ((get_schema.map fun e => e.2.title).contains "OrderItem") = false ∧
    ((get_schema.map fun e => e.2).contains User.json_schema) = false ∧
    ((get_schema.map fun e => e.2).contains Product.json_schema) = false ∧
    ((get_schema.map fun e => e.2).contains OrderItem.json_schema) = false := by
  refine ⟨rfl, rfl, rfl, ?_, ?_, ?_, ?_, ?_, ?_⟩ <;> decide

/-- Witness for C7, projecting the key list of the schema response. -/
theorem schema_exactly_three_shapes_witness :
    get_schema.map Prod.fst = ["menuitem", "review", "order"] :=
  schema_exactly_three_shapes.2.1

/-- C8: every persistence access is keyed by the lowercase of the record
type name — `GET /api/menu` only reads and writes collection "menuitem",
`GET /api/reviews` only "review", and `POST /api/orders` passes "order"
to `create_document` — where "menuitem", "review" and "order" are the
lowercasings of "MenuItem", "Review" and "Order". -/
theorem collection_names_lowercase :
    lowerStr "MenuItem" = "menuitem" ∧
    lowerStr "Review" = "review" ∧
    lowerStr "Order" = "order" ∧
    (∀ (s t : String → List MenuItemRaw), s "menuitem" = t "menuitem" →
        (getMenuStep s).inserted = (getMenuStep t).inserted ∧
        (getMenuStep s).response = (getMenuStep t).response) ∧
    (∀ (s : String → List MenuItemRaw) (c : String), c ≠ "menuitem" →
        (getMenuStep s).store c = s c) ∧
    (∀ (s t : String → List ReviewRaw), s "review" = t "review" →
        (getReviewsStep s).inserted = (getReviewsStep t).inserted ∧
        (getReviewsStep s).response = (getReviewsStep t).response) ∧
    (∀ (s : String → List ReviewRaw) (c : String), c ≠ "review" →
        (getReviewsStep s).store c = s c) ∧
    (∀ (cd ce : String → Order → Option String) (o : Order),
        cd "order" = ce "order" → create_order cd o = create_order ce o) := by
  refine ⟨by decide, by decide, by decide, ?_, ?_, ?_, ?_, ?_⟩
  · intro s t h
    cases hE : (t "menuitem").isEmpty with
    | true => exact ⟨by simp [getMenuStep, h, hE], by simp [getMenuStep, h, hE]⟩
    | false => exact ⟨by simp [getMenuStep, h, hE], by simp [getMenuStep, h, hE]⟩
  · intro s c hc
    cases hE : (s "menuitem").isEmpty with
    | true => simp [getMenuStep, hE, hc]
    | false => simp [getMenuStep, hE]
  · intro s t h
    cases hE : (t "review").isEmpty with
    | true => exact ⟨by simp [getReviewsStep, h, hE], by simp [getReviewsStep, h, hE]⟩
    | false => exact ⟨by simp [getReviewsStep, h, hE], by simp [getReviewsStep, h, hE]⟩
  · intro s c hc
    cases hE : (s "review").isEmpty with
    | true => simp [getReviewsStep, hE, hc]
    | false => simp [getReviewsStep, hE]
  · intro cd ce o h
    simp only [create_order, h]

/-- Witness for C8: framing at concrete stores, a concrete foreign
collection name, and two collaborators agreeing on "order". -/
theorem collection_names_lowercase_witness :
    (getMenuStep (fun _ => [bad_menu_doc])).store "user" = [bad_menu_doc] ∧
    (getReviewsStep (fun _ => [bad_review_doc])).store "product" = [bad_review_doc] ∧
    create_order (fun _ _ => none) order_demo =
      create_order (fun c _ => if c = "order" then none else some "zzz") order_demo :=
  ⟨collection_names_lowercase.2.2.2.2.1 (fun _ => [bad_menu_doc]) "user" (by decide),
   collection_names_lowercase.2.2.2.2.2.2.1 (fun _ => [bad_review_doc]) "product" (by decide),
   collection_names_lowercase.2.2.2.2.2.2.2 (fun _ _ => none)
     (fun c _ => if c = "order" then none else some "zzz") order_demo
     (funext fun _ => rfl)⟩

/-- C9: `OrderItem` places no range constraint on price or quantity — any
present name and price validate, with quantity defaulting to 1 when
absent — so an item with negative price or with zero or negative quantity
is accepted by `POST /api/orders`, unlike `MenuItem`, whose `ge=0` price
bound rejects negative prices. -/
theorem orderitem_no_range_constraints :
    (∀ (iid : Option String) (n : String) (p : Rat) (q : Int)
        (opts : Option (List (String × String))),
        OrderItem.validate ⟨iid, some n, some p, some q, opts⟩ =
          some ⟨iid, n, p, q, opts⟩) ∧
    (∀ (iid : Option String) (n : String) (p : Rat)
        (opts : Option (List (String × String))),
        OrderItem.validate ⟨iid, some n, some p, none, opts⟩ =
          some ⟨iid, n, p, 1, opts⟩) ∧
    OrderItem.validate negItem_raw = some ⟨none, "Mystery Wrap", rat_neg_5, 0, none⟩ ∧
    rat_neg_5 < 0 ∧
    OrderItem.validate negQtyItem_raw = some ⟨none, "Echo Fries", rat_8_75, -3, none⟩ ∧
    Order.validate order_negitem_raw = some order_negitem ∧
    create_order (fun _ _ => some "oid-3") order_negitem =
      ⟨some "oid-3", "Order received. We\x27ll start the grill!"⟩ ∧
    (∀ (r : MenuItemRaw) (p : Rat), r.price = some p → p < 0 →
        MenuItem.validate r = none) := by
  exact ⟨fun _ _ _ _ _ => rfl, fun _ _ _ _ => rfl, by decide, by decide, by decide,
         by decide, rfl, menuItem_validate_neg_price⟩

/-- Witness for C9: a concrete free item accepted, a concrete negatively
priced menu item rejected. -/
theorem orderitem_no_range_constraints_witness :
    OrderItem.validate ⟨none, some "Free Wrap", some rat_neg_5, some 0, none⟩ =
      some ⟨none, "Free Wrap", rat_neg_5, 0, none⟩ ∧
    MenuItem.validate ⟨some "Ghost", none, some rat_neg_5, some "wraps",
      none, none, none, none⟩ = none :=
  ⟨orderitem_no_range_constraints.1 none "Free Wrap" rat_neg_5 0 none,
   orderitem_no_range_constraints.2.2.2.2.2.2.2 _ rat_neg_5 rfl (by decide)⟩

/-- C10: when the persistence read returns a non-empty document list and
any document fails model validation, the raised ValidationError is caught
and the handler answers with the three hardcoded defaults. -/
theorem invalid_stored_docs_fall_back_to_defaults :
    (∀ (docs : List MenuItemRaw) (d : MenuItemRaw) (b : Bool),
        d ∈ docs → MenuItem.validate d = none →
        get_menu (.found docs b) = menuDefaults) ∧
    (∀ (docs : List ReviewRaw) (d : ReviewRaw) (b : Bool),
        d ∈ docs → Review.validate d = none →
        get_reviews (.found docs b) = reviewDefaults) := by
  constructor
  · intro docs d b hmem hnone
    have hne : docs.isEmpty = false := by
      cases docs with
      | nil => cases hmem
      | cons x xs => rfl
    have hv := validateList_none_of_mem MenuItem.validate docs d hmem hnone
    simp [get_menu, hne, hv]
  · intro docs d b hmem hnone
    have hne : docs.isEmpty = false := by
      cases docs with
      | nil => cases hmem
      | cons x xs => rfl
    have hv := validateList_none_of_mem Review.validate docs d hmem hnone
    simp [get_reviews, hne, hv]

/-- Witness for C10: concrete stored documents with out-of-range ratings
make both read handlers answer with the defaults. -/
theorem invalid_stored_docs_witness :
    get_menu (.found [bad_menu_doc] false) = menuDefaults ∧
    get_reviews (.found [bad_review_doc] false) = reviewDefaults :=
  ⟨invalid_stored_docs_fall_back_to_defaults.1 [bad_menu_doc] bad_menu_doc false
     (by simp) (by decide),
   invalid_stored_docs_fall_back_to_defaults.2 [bad_review_doc] bad_review_doc false
     (by simp) (by decide)⟩
